import Mathlib

/-!
# mkSurf: two-stage marker-controlled watershed (src/mkSurf.cxx)

Shallow embedding of `ParseCmdLine`, `writeImDbg`, `doSeg` and `main`.

* A volume is a map from voxel index to voxel value.  Mask volumes
  (`itk::Image<unsigned char, 3>`) take values in `Nat`, intensity volumes
  (`itk::Image<PixType, 3>`) take values in `Int`; `doSeg` carries the pixel
  type it is instantiated with, and the shift-scale filter saturates at the
  range of that type.
* The command-line sizes are `float` in the source and rationals here.
* The filters whose code is not part of mkSurf.cxx (hole filling, the
  structuring-element erosion, dilation, the directional derivative, recursive
  Gaussian smoothing, the watershed flood) and file input are fields of `Lib`.
* The voxelwise library filters that `doSeg` configures (maximum, binary
  threshold, threshold-below, shift-scale) are written out with the settings
  `doSeg` passes to them.
-/

set_option linter.unusedVariables false

namespace MkSurf

/-! ## Data model -/

/-- Mask volume, `MaskImType` in `doSeg`: `unsigned char` voxels. -/
abbrev MaskImType (ι : Type) := ι → Nat

/-- Intensity volume, `ImageType` in `doSeg`. -/
abbrev ImageType (ι : Type) := ι → Int

/-- The class `CmdLineType` of mkSurf.cxx. -/
structure CmdLineType where
  InputIm : String
  OutputIm : String
  MaskIm : String
  FiducialIm : String
  erodesize : ℚ
  dilatesize : ℚ
  smoothsize : ℚ
  LightToDark : Bool

/-- The values TCLAP hands back for the arguments declared in `ParseCmdLine`:
required arguments are present, optional ones may be absent (`getValue` then
returns the declared default), a switch field is the result of `getValue`. -/
structure Args where
  inArg : String
  outArg : String
  maskArg : String
  fidArg : Option String
  smoothArg : Option ℚ
  eroArg : Option ℚ
  dilArg : Option ℚ
  debugArg : Bool
  signArg : Bool

/-- Component types of `itk::ImageIOBase::IOComponentType`. -/
inductive IOComponentType
  | UNKNOWNCOMPONENTTYPE | UCHAR | CHAR | USHORT | SHORT | UINT | INT
  | ULONG | LONG | FLOAT | DOUBLE
  deriving DecidableEq, Repr

/-- The pixel types `main` instantiates `doSeg` with. -/
inductive PixType
  | short | unsignedShort | int | float
  deriving DecidableEq, Repr

/-- Largest value of a pixel type, `NumericTraits<PixType>::max()`. -/
def PixType.max : PixType → Int
  | .short => 32767
  | .unsignedShort => 65535
  | .int => 2147483647
  | .float => 340282346638528859811704183484516925440

/-- Least value of a pixel type, `NumericTraits<PixType>::NonpositiveMin()`. -/
def PixType.NonpositiveMin : PixType → Int
  | .short => -32768
  | .unsignedShort => 0
  | .int => -2147483648
  | .float => -340282346638528859811704183484516925440

/-- One call of `writeIm`: the file name and the volume written. -/
inductive Written (ι : Type)
  | mask (filename : String) (Im : MaskImType ι)
  | image (filename : String) (Im : ImageType ι)

/-- File name of a written volume. -/
def Written.filename {ι : Type} : Written ι → String
  | .mask f _ => f
  | .image f _ => f

/-- External collaborators of mkSurf.cxx: file input and the filters whose
code is outside this file. -/
structure Lib (ι : Type) where
  /-- Reads an intensity volume, `readIm<ImageType>`. -/
  readIm : String → ImageType ι
  /-- Reads a mask volume, `readIm<MaskImType>`. -/
  readMaskIm : String → MaskImType ι
  /-- Result of `readImageInfo`: `none` when it returns false, otherwise the
  component type and the dimension count it stores. -/
  readImageInfo : String → Option (IOComponentType × Int)
  /-- Output of `itk::BinaryFillholeImageFilter`. -/
  BinaryFillhole : MaskImType ι → MaskImType ι
  /-- Erosion by the structuring element of a positive radius, image spacing
  in use: what `itk::BinaryErodeParaImageFilter` applies for such a radius. -/
  BinaryErodePara : ℚ → MaskImType ι → MaskImType ι
  /-- Output of `itk::BinaryDilateParaImageFilter` for a radius, image spacing in use. -/
  BinaryDilatePara : ℚ → MaskImType ι → MaskImType ι
  /-- Directional derivative of an intensity volume relative to a mask,
  before masking and scaling. -/
  directionalDerivative : ImageType ι → MaskImType ι → ImageType ι
  /-- Output of `itk::SmoothingRecursiveGaussianImageFilter` for a sigma. -/
  SmoothingRecursiveGaussian : ℚ → ImageType ι → ImageType ι
  /-- Output of `itk::MorphologicalWatershedFromMarkersImageFilter` (no
  watershed line) for a cost volume and a marker volume. -/
  MorphologicalWatershedFromMarkers : ImageType ι → MaskImType ι → MaskImType ι

/-! ## Voxelwise filters configured by `doSeg` -/

/-- `itk::MaximumImageFilter`: voxelwise maximum of the two inputs. -/
def MaximumImageFilter {ι α : Type} [Max α] (Input Input2 : ι → α) : ι → α :=
  fun v => max (Input v) (Input2 v)

/-- `itk::BinaryThresholdImageFilter`: the inside value where the input lies
in `[LowerThreshold, UpperThreshold]`, the outside value elsewhere. -/
def BinaryThresholdImageFilter {ι : Type} (Input : MaskImType ι)
    (UpperThreshold LowerThreshold InsideValue OutsideValue : Nat) : MaskImType ι :=
  fun v => if LowerThreshold ≤ Input v ∧ Input v ≤ UpperThreshold then InsideValue
    else OutsideValue

/-- `itk::ThresholdImageFilter` after `ThresholdBelow(thresh)`: values below
the threshold are replaced by the outside value, the others are kept.  `doSeg`
calls `ThresholdBelow(0)` and then `SetLower(0)`, the same bound again, and
leaves the outside value at its default 0. -/
def ThresholdBelow {ι : Type} (Input : ImageType ι) (thresh OutsideValue : Int) :
    ImageType ι :=
  fun v => if Input v < thresh then OutsideValue else Input v

/-- `itk::ShiftScaleImageFilter<MaskImType, ImageType>`: `(input + shift) * scale`,
stored in the output pixel type `P`: a value below the range of `P` becomes its
least value, a value above the range its largest value. -/
def ShiftScaleImageFilter {ι : Type} (P : PixType) (Input : MaskImType ι)
    (Shift Scale : Int) : ImageType ι :=
  fun v =>
    let value := ((Input v : Int) + Shift) * Scale
    if value < P.NonpositiveMin then P.NonpositiveMin
    else if value > P.max then P.max
    else value

/-- Modelled from the spec: `itk::BinaryErodeParaImageFilter`, whose header
itkBinaryErodeParaImageFilter.h is not among the sources.  Following section
4.1: a negative or zero radius is a no-op returning a copy of the input, a
positive radius applies the structuring element of that extent (`erode`). -/
def BinaryErodeParaImageFilter {ι : Type} (erode : ℚ → MaskImType ι → MaskImType ι)
    (Radius : ℚ) (Input : MaskImType ι) : MaskImType ι :=
  if Radius ≤ 0 then Input else erode Radius Input

/-- Modelled from the spec: `itk::DirectionalGradientImageFilter`, whose header
itkDirectionalGradientImageFilter.h is not among the sources.  Following
section 4.2 (a) and (b): a voxel outside the mask gets the outside value, a
voxel inside gets the directional derivative multiplied by the scale. -/
def DirectionalGradientImageFilter {ι : Type} (derivative : ImageType ι)
    (MaskImage : MaskImType ι) (OutsideValue Scale : Int) : ImageType ι :=
  fun v => if MaskImage v ≠ 0 then Scale * derivative v else OutsideValue

/-! ## Globals, `writeImDbg`, `ParseCmdLine` -/

/-- Initial value of the global `debug`. -/
def debug : Bool := false

/-- The global of the same name in mkSurf.cxx. -/
def debugprefix : String := "/tmp/align"

/-- The global `debugsuffix`. -/
def debugsuffix : String := ".nii.gz"

/-- `writeIm<MaskImType>`: one write. -/
def writeIm {ι : Type} (Im : MaskImType ι) (filename : String) : List (Written ι) :=
  [Written.mask filename Im]

/-- `writeIm<ImageType>`: one write. -/
def writeImage {ι : Type} (Im : ImageType ι) (filename : String) : List (Written ι) :=
  [Written.image filename Im]

/-- `writeImDbg`: writes only when the global `debug` (passed as `dbg`) is set. -/
def writeImDbg {ι : Type} (dbg : Bool) (Im : MaskImType ι) (filename : String) :
    List (Written ι) :=
  if dbg then writeIm Im ( debugprefix ++ "_" ++ filename ++ debugsuffix) else []

/-- `ParseCmdLine` on successfully parsed arguments: the filled `CmdLineObj`
and the new value of the global `debug`. -/
def ParseCmdLine (a : Args) : CmdLineType × Bool :=
  ({ InputIm := a.inArg
     OutputIm := a.outArg
     MaskIm := a.maskArg
     FiducialIm := a.fidArg.getD ""
     erodesize := a.eroArg.getD 3
     smoothsize := a.smoothArg.getD 2
     dilatesize := a.dilArg.getD 3
     LightToDark := !a.signArg },
   a.debugArg)

/-! ## `doSeg` -/

/-- Every object `doSeg` builds, under the name it has in the source, and the
list of `writeIm` calls in program order.  The three `Radius` fields are the
values handed to `SetRadius`, `GradDScale` the scale of `GradD`. -/
structure Pipeline (ι : Type) where
  T1 : ImageType ι
  mask : MaskImType ι
  Fill : MaskImType ι
  HEADDilateRadius : ℚ
  HEADDilate : MaskImType ι
  ErodeRadius : ℚ
  Erode : MaskImType ι
  DilateRadius : ℚ
  Dilate : MaskImType ι
  Invert : MaskImType ι
  Comb : MaskImType ι
  GradDScale : Int
  GradD : ImageType ι
  DGThresh : ImageType ι
  Grad : ImageType ι
  gradient : ImageType ι
  WS : MaskImType ι
  Select : MaskImType ι
  Grad2 : ImageType ι
  gradient2 : ImageType ι
  Comb2 : MaskImType ι
  WS2 : MaskImType ι
  Select2 : MaskImType ι
  written : List (Written ι)

/-- The marker combination `Comb` of `doSeg` as a function of its two inputs. -/
def Comb {ι : Type} (ErodeOutput InvertOutput : MaskImType ι) : MaskImType ι :=
  MaximumImageFilter ErodeOutput InvertOutput

/-- The marker combination `Comb2` of `doSeg` as a function of its two inputs. -/
def Comb2 {ι : Type} (SelectOutput InvertOutput : MaskImType ι) : MaskImType ι :=
  MaximumImageFilter SelectOutput InvertOutput

/-- `doSeg<PixType, 3>` for the pixel type `P` (the `DIRGRAD` branch, which
mkSurf.cxx defines), object by object in source order.  `GradD` keeps scale 1 unless `SetScale(-1)` is called; the
stage-1 mask is written before stage 2 is built, the other three volumes at
the end.  The body has no branch that leaves the function early. -/
def doSeg {ι : Type} (P : PixType) (L : Lib ι) (CmdLineObj : CmdLineType) : Pipeline ι :=
  let T1 := L.readIm CmdLineObj.InputIm
  let mask := L.readMaskIm CmdLineObj.MaskIm
  let Fill := L.BinaryFillhole mask
  let HEADDilateRadius := max CmdLineObj.dilatesize 5
  let HEADDilate := L.BinaryDilatePara HEADDilateRadius Fill
  let ErodeRadius := CmdLineObj.erodesize
  let Erode := BinaryErodeParaImageFilter L.BinaryErodePara ErodeRadius Fill
  let DilateRadius := CmdLineObj.dilatesize
  let Dilate := L.BinaryDilatePara DilateRadius Fill
  let Invert := BinaryThresholdImageFilter Dilate 0 0 2 0
  let CombOut := Comb Erode Invert
  let GradDScale : Int := if !CmdLineObj.LightToDark then -1 else 1
  let GradD := DirectionalGradientImageFilter (L.directionalDerivative T1 HEADDilate)
    HEADDilate 0 GradDScale
  let DGThresh := ThresholdBelow GradD 0 0
  let Grad := L.SmoothingRecursiveGaussian CmdLineObj.smoothsize DGThresh
  let gradient :=
    if CmdLineObj.FiducialIm ≠ "" then
      let fiducials := L.readMaskIm CmdLineObj.FiducialIm
      let scaler := ShiftScaleImageFilter P fiducials 0 100
      MaximumImageFilter scaler Grad
    else Grad
  let WS := L.MorphologicalWatershedFromMarkers gradient CombOut
  let Select := BinaryThresholdImageFilter WS 1 1 1 0
  let Grad2 := L.SmoothingRecursiveGaussian CmdLineObj.smoothsize T1
  let gradient2 :=
    if CmdLineObj.FiducialIm ≠ "" then
      let fiducials := L.readMaskIm CmdLineObj.FiducialIm
      let scaler := ShiftScaleImageFilter P fiducials 0 200
      MaximumImageFilter scaler Grad2
    else Grad2
  let Comb2Out := Comb2 Select Invert
  let WS2 := L.MorphologicalWatershedFromMarkers gradient2 Comb2Out
  let Select2 := BinaryThresholdImageFilter WS2 1 1 1 0
  { T1 := T1, mask := mask, Fill := Fill
    HEADDilateRadius := HEADDilateRadius, HEADDilate := HEADDilate
    ErodeRadius := ErodeRadius, Erode := Erode
    DilateRadius := DilateRadius, Dilate := Dilate
    Invert := Invert, Comb := CombOut
    GradDScale := GradDScale, GradD := GradD, DGThresh := DGThresh, Grad := Grad
    gradient := gradient, WS := WS, Select := Select
    Grad2 := Grad2, gradient2 := gradient2
    Comb2 := Comb2Out, WS2 := WS2, Select2 := Select2
    written :=
      writeIm Select "/tmp/stage1.nii.gz"
        ++ writeIm Select2 CmdLineObj.OutputIm
        ++ writeImage gradient2 "/tmp/grad2.nii.gz"
        ++ writeIm Comb2Out "/tmp/marker2.nii.gz" }

/-! ## `main` -/

/-- The constant of the same name in cstdlib. -/
def EXIT_SUCCESS : Int := 0

/-- The constant of the same name in cstdlib. -/
def EXIT_FAILURE : Int := 1

/-- The constant `dimension` of `main`. -/
def dimension : Int := 3

/-- What a run of `main` does: its return value, the value of the global
`debug` after parsing, and each `doSeg` instantiation it called with that
call's pipeline. -/
structure MainResult (ι : Type) where
  status : Int
  debug : Bool
  doSegCalls : List (PixType × Pipeline ι)

/-- `main` on successfully parsed arguments.  The two global tolerance
settings between the dimension test and the dispatch touch no modelled state. -/
def main {ι : Type} (L : Lib ι) (a : Args) : MainResult ι :=
  let CmdLineObj := (ParseCmdLine a).1
  let dbg := (ParseCmdLine a).2
  match L.readImageInfo CmdLineObj.InputIm with
  | none => { status := EXIT_FAILURE, debug := dbg, doSegCalls := [] }
  | some (ComponentType, dim1) =>
    if dim1 ≠ dimension then
      { status := EXIT_FAILURE, debug := dbg, doSegCalls := [] }
    else
      match ComponentType with
      | .SHORT =>
        { status := EXIT_SUCCESS, debug := dbg
          doSegCalls := [(PixType.short, doSeg PixType.short L CmdLineObj)] }
      | .USHORT =>
        { status := EXIT_SUCCESS, debug := dbg
          doSegCalls := [(PixType.unsignedShort, doSeg PixType.unsignedShort L CmdLineObj)] }
      | .INT =>
        { status := EXIT_SUCCESS, debug := dbg
          doSegCalls := [(PixType.int, doSeg PixType.int L CmdLineObj)] }
      | _ =>
        { status := EXIT_SUCCESS, debug := dbg
          doSegCalls := [(PixType.float, doSeg PixType.float L CmdLineObj)] }

/-! ## A concrete library on a one-row volume

Concrete collaborators on a volume of `n` voxels in a row (size n x 1 x 1,
spacing 1 mm), used to run `doSeg` and `main` on explicit inputs. -/

/-- Distance in voxels between two positions of the row. -/
def rowDist (i j : Nat) : Nat := if i ≤ j then j - i else i - j

/-- Row hole filling: a background voxel with foreground on both sides becomes 1. -/
def rowFillhole {n : Nat} (m : MaskImType (Fin n)) : MaskImType (Fin n) :=
  fun v =>
    if m v ≠ 0 then m v
    else if (∃ u : Fin n, u.val < v.val ∧ m u ≠ 0) ∧ (∃ u : Fin n, v.val < u.val ∧ m u ≠ 0)
      then 1 else 0

/-- Row dilation: 1 where some foreground voxel lies within the radius; a copy
of the input for a negative or zero radius (section 4.1). -/
def rowDilate {n : Nat} (r : ℚ) (m : MaskImType (Fin n)) : MaskImType (Fin n) :=
  fun v =>
    if r ≤ 0 then m v
    else if ∃ u : Fin n, m u ≠ 0 ∧ (rowDist u.val v.val : ℚ) ≤ r then 1 else 0

/-- Row erosion by a positive radius: 1 where every voxel within the radius is
foreground. -/
def rowErode {n : Nat} (r : ℚ) (m : MaskImType (Fin n)) : MaskImType (Fin n) :=
  fun v => if m v ≠ 0 ∧ ∀ u : Fin n, (rowDist u.val v.val : ℚ) ≤ r → m u ≠ 0 then 1 else 0

/-- Value of a row volume at a position, the border value being repeated
outside the row. -/
def rowAt {n : Nat} (f : ImageType (Fin n)) (i : Int) : Int :=
  if h : 0 < n then
    f ⟨min i.toNat (n - 1), by omega⟩
  else 0

/-- Row derivative: backward difference, positive where the intensity drops
towards the end of the row. -/
def rowDerivative {n : Nat} (f : ImageType (Fin n)) (m : MaskImType (Fin n)) :
    ImageType (Fin n) :=
  fun v => rowAt f ((v.val : Int) - 1) - rowAt f (v.val : Int)

/-- Row gradient magnitude: absolute central difference. -/
def rowGradientMagnitude {n : Nat} (f : ImageType (Fin n)) : ImageType (Fin n) :=
  fun v => |rowAt f ((v.val : Int) + 1) - rowAt f ((v.val : Int) - 1)| / 2

/-- Row smoothing: the 1-2-1 average for a positive sigma, the identity otherwise. -/
def rowSmooth {n : Nat} (sigma : ℚ) (f : ImageType (Fin n)) : ImageType (Fin n) :=
  fun v =>
    if 0 < sigma then
      (rowAt f ((v.val : Int) - 1) + 2 * rowAt f (v.val : Int) + rowAt f ((v.val : Int) + 1)) / 4
    else f v

/-- Removes from a queue the first position of least cost. -/
def rowPopMin (cost : Nat → Int) : List Nat → Option (Nat × List Nat)
  | [] => none
  | i :: q =>
    match rowPopMin cost q with
    | none => some (i, [])
    | some (j, q1) => if cost j < cost i then some (j, i :: q1) else some (i, q)

/-- Labels position `j` with `l` and queues it, when it lies in the row and is
unlabelled. -/
def rowVisit (n l j : Nat) (st : List Nat × List Nat) : List Nat × List Nat :=
  if j < n ∧ st.1.getD j 0 = 0 then (st.1.set j l, st.2 ++ [j]) else st

/-- Priority flood of section 4.5 on a row: labels, queue, one pop per unit of fuel. -/
def rowFlood (n : Nat) (cost : Nat → Int) : Nat → List Nat → List Nat → List Nat
  | 0, lab, _ => lab
  | fuel + 1, lab, q =>
    match rowPopMin cost q with
    | none => lab
    | some (i, q1) =>
      let l := lab.getD i 0
      let st1 := if 0 < i then rowVisit n l (i - 1) (lab, q1) else (lab, q1)
      let st2 := rowVisit n l (i + 1) st1
      rowFlood n cost fuel st2.1 st2.2

/-- Row watershed from markers: the flood started from every labelled voxel,
run for `n` pops (a voxel is queued when it receives its label, so at most once). -/
def rowWatershed {n : Nat} (cost : ImageType (Fin n)) (marker : MaskImType (Fin n)) :
    MaskImType (Fin n) :=
  let lab0 := (List.range n).map fun i => if h : i < n then marker ⟨i, h⟩ else 0
  let q0 := (List.range n).filter fun i => lab0.getD i 0 ≠ 0
  let c : Nat → Int := fun i => if h : i < n then cost ⟨i, h⟩ else 0
  let res := rowFlood n c n lab0 q0
  fun v => res.getD v.val 0

/-- The row library for given file contents: every intensity file holds `T1`,
the mask file named `maskName` holds `mask`, every other mask file holds
`fiducials`; image files report component type SHORT and `dim` dimensions. -/
def rowLib {n : Nat} (T1 : ImageType (Fin n)) (maskName : String)
    (mask fiducials : MaskImType (Fin n)) (dim : Int) : Lib (Fin n) where
  readIm := fun _ => T1
  readMaskIm := fun f => if f = maskName then mask else fiducials
  readImageInfo := fun _ => some (IOComponentType.SHORT, dim)
  BinaryFillhole := rowFillhole
  BinaryErodePara := rowErode
  BinaryDilatePara := rowDilate
  directionalDerivative := rowDerivative
  SmoothingRecursiveGaussian := rowSmooth
  MorphologicalWatershedFromMarkers := rowWatershed

/-- Turns a list of voxel values into a row volume. -/
def ofList {α : Type} [Inhabited α] {n : Nat} (l : List α) : Fin n → α :=
  fun v => l.getD v.val default

/-! ## Concrete runs -/

/-- Seven-voxel row: a bright block of three voxels, its mask, one fiducial voxel. -/
def lib7 : Lib (Fin 7) :=
  rowLib (ofList [0, 0, 9, 9, 9, 0, 0]) "mask.nii.gz" (ofList [0, 0, 1, 1, 1, 0, 0])
    (ofList [0, 0, 0, 0, 0, 1, 0]) 3

/-- Command line `-i t1.nii.gz -o out.nii.gz -m mask.nii.gz --smoothing 1
--erode 1 --dilate 1`. -/
def args7 : Args where
  inArg := "t1.nii.gz"
  outArg := "out.nii.gz"
  maskArg := "mask.nii.gz"
  fidArg := none
  smoothArg := some 1
  eroArg := some 1
  dilArg := some 1
  debugArg := debug
  signArg := false

/-- Three-voxel row with a one-voxel mask. -/
def lib3 : Lib (Fin 3) :=
  rowLib (ofList [5, 9, 5]) "mask.nii.gz" (ofList [0, 1, 0]) (ofList []) 3

/-- Three-voxel row of constant intensity 7. -/
def libConst : Lib (Fin 3) :=
  rowLib (ofList [7, 7, 7]) "mask.nii.gz" (ofList [0, 1, 0]) (ofList []) 3

/-- Command line `-i t1.nii.gz -o out.nii.gz -m mask.nii.gz`: every optional
argument at its default, no debug switch. -/
def argsDefault : Args where
  inArg := "t1.nii.gz"
  outArg := "out.nii.gz"
  maskArg := "mask.nii.gz"
  fidArg := none
  smoothArg := none
  eroArg := none
  dilArg := none
  debugArg := debug
  signArg := false

/-- Command line `-i t1.nii.gz -o out.nii.gz -m mask.nii.gz --erode -1`. -/
def argsNegErode : Args where
  inArg := "t1.nii.gz"
  outArg := "out.nii.gz"
  maskArg := "mask.nii.gz"
  fidArg := none
  smoothArg := none
  eroArg := some (-1)
  dilArg := none
  debugArg := debug
  signArg := false

/-- Seven-voxel row as in `lib7`, the fiducial file marking voxel 5 with 255. -/
def libFid : Lib (Fin 7) :=
  rowLib (ofList [0, 0, 9, 9, 9, 0, 0]) "mask.nii.gz" (ofList [0, 0, 1, 1, 1, 0, 0])
    (ofList [0, 0, 0, 0, 0, 255, 0]) 3

/-- Command line `-i t1.nii.gz -o out.nii.gz -m mask.nii.gz -f fid.nii.gz
--smoothing 1 --erode 1 --dilate 1`. -/
def argsFid : Args where
  inArg := "t1.nii.gz"
  outArg := "out.nii.gz"
  maskArg := "mask.nii.gz"
  fidArg := some "fid.nii.gz"
  smoothArg := some 1
  eroArg := some 1
  dilArg := some 1
  debugArg := debug
  signArg := false

/-! ## Shape of the objects built by `doSeg` -/

section Shape

variable {ι : Type} (P : PixType) (L : Lib ι) (c : CmdLineType)

theorem doSeg_Invert (v : ι) :
    (doSeg P L c).Invert v = if (doSeg P L c).Dilate v = 0 then 2 else 0 := by
  show (BinaryThresholdImageFilter (doSeg P L c).Dilate 0 0 2 0) v = _
  simp [BinaryThresholdImageFilter]

theorem doSeg_Select (v : ι) :
    (doSeg P L c).Select v = if (doSeg P L c).WS v = 1 then 1 else 0 := by
  show (BinaryThresholdImageFilter (doSeg P L c).WS 1 1 1 0) v = _
  simp only [BinaryThresholdImageFilter]
  by_cases h : (doSeg P L c).WS v = 1
  · simp [h]
  · have : ¬ (1 ≤ (doSeg P L c).WS v ∧ (doSeg P L c).WS v ≤ 1) := by omega
    simp [h, this]

theorem doSeg_Select2 (v : ι) :
    (doSeg P L c).Select2 v = if (doSeg P L c).WS2 v = 1 then 1 else 0 := by
  show (BinaryThresholdImageFilter (doSeg P L c).WS2 1 1 1 0) v = _
  simp only [BinaryThresholdImageFilter]
  by_cases h : (doSeg P L c).WS2 v = 1
  · simp [h]
  · have : ¬ (1 ≤ (doSeg P L c).WS2 v ∧ (doSeg P L c).WS2 v ≤ 1) := by omega
    simp [h, this]

theorem doSeg_Comb (v : ι) :
    (doSeg P L c).Comb v = max ((doSeg P L c).Erode v) ((doSeg P L c).Invert v) := rfl

theorem doSeg_Comb2 (v : ι) :
    (doSeg P L c).Comb2 v = max ((doSeg P L c).Select v) ((doSeg P L c).Invert v) := rfl

theorem doSeg_written_filenames :
    (doSeg P L c).written.map Written.filename
      = ["/tmp/stage1.nii.gz", c.OutputIm, "/tmp/grad2.nii.gz", "/tmp/marker2.nii.gz"] := rfl

end Shape

/-! ## C1: marker precedence in the combine steps -/

/-- C2, as stated, fails: on the row of constant intensity 7 the stage-2 cost
field is 7 at every voxel, the smoothed gradient of the input is 0 at every
voxel. -/
theorem gradient2_not_smoothed_gradient :
    (∀ v, (doSeg PixType.short libConst (ParseCmdLine argsDefault).1).gradient2 v = 7)
      ∧ (∀ v, libConst.SmoothingRecursiveGaussian (ParseCmdLine argsDefault).1.smoothsize
            (rowGradientMagnitude (libConst.readIm (ParseCmdLine argsDefault).1.InputIm)) v = 0)
      ∧ (doSeg PixType.short libConst (ParseCmdLine argsDefault).1).gradient2
          ≠ libConst.SmoothingRecursiveGaussian (ParseCmdLine argsDefault).1.smoothsize
            (rowGradientMagnitude (libConst.readIm (ParseCmdLine argsDefault).1.InputIm)) := by
  have h1 : ∀ v, (doSeg PixType.short libConst (ParseCmdLine argsDefault).1).gradient2 v = 7 := by decide
  have h2 : ∀ v, libConst.SmoothingRecursiveGaussian (ParseCmdLine argsDefault).1.smoothsize
      (rowGradientMagnitude (libConst.readIm (ParseCmdLine argsDefault).1.InputIm)) v = 0 := by
    decide
  refine ⟨h1, h2, fun h => ?_⟩
  have h3 := h1 0
  rw [h, h2 0] at h3
  exact absurd h3 (by decide)

/-- C2, amended: the stage-2 field is the Gaussian smoothing, with the sigma of
stage 1, of the input intensity itself (no gradient step, no mask, no clamp);
the second watershed floods it after the optional fiducial injection. -/
theorem Grad2_is_smoothed_intensity {ι : Type} (P : PixType) (L : Lib ι) (c : CmdLineType) :
    (doSeg P L c).Grad2 = L.SmoothingRecursiveGaussian c.smoothsize (L.readIm c.InputIm)
      ∧ (doSeg P L c).Grad = L.SmoothingRecursiveGaussian c.smoothsize (doSeg P L c).DGThresh
      ∧ (doSeg P L c).gradient2
          = (if c.FiducialIm = "" then (doSeg P L c).Grad2
             else MaximumImageFilter (ShiftScaleImageFilter P (L.readMaskIm c.FiducialIm) 0 200)
               (doSeg P L c).Grad2)
      ∧ (doSeg P L c).WS2
          = L.MorphologicalWatershedFromMarkers (doSeg P L c).gradient2 (doSeg P L c).Comb2 := by
  refine ⟨rfl, rfl, ?_, rfl⟩
  by_cases h : c.FiducialIm = "" <;> simp [doSeg, h]

/-! ## C3: unlabelled voxels after flooding -/

/-- C3, as stated, fails: on the three-voxel row with default radii the marker
is empty, both watershed results are UNLABELED everywhere, `main` returns
success and the output mask is written, with 0 at those voxels. -/
theorem unlabeled_run_succeeds :
    (∀ v, (doSeg PixType.short lib3 (ParseCmdLine argsDefault).1).WS v = 0)
      ∧ (∀ v, (doSeg PixType.short lib3 (ParseCmdLine argsDefault).1).WS2 v = 0)
      ∧ (∀ v, (doSeg PixType.short lib3 (ParseCmdLine argsDefault).1).Select2 v = 0)
      ∧ (main lib3 argsDefault).status = EXIT_SUCCESS
      ∧ (main lib3 argsDefault).doSegCalls.map (fun r => r.2.written.map Written.filename)
          = [["/tmp/stage1.nii.gz", "out.nii.gz", "/tmp/grad2.nii.gz", "/tmp/marker2.nii.gz"]] := by
  refine ⟨by decide, by decide, by decide, rfl, rfl⟩

/-- C3, amended: `doSeg` has no consistency check; a voxel left UNLABELED (0) by
a watershed is mapped to 0 by the label selection of that stage, and the
output mask `Select2` is written to `OutputIm`. -/
theorem unlabeled_selected_as_zero {ι : Type} (P : PixType) (L : Lib ι) (c : CmdLineType) (v : ι)
    (h : (doSeg P L c).WS v = 0 ∨ (doSeg P L c).WS2 v = 0) :
    ((doSeg P L c).WS v = 0 → (doSeg P L c).Select v = 0)
      ∧ ((doSeg P L c).WS2 v = 0 → (doSeg P L c).Select2 v = 0)
      ∧ Written.mask c.OutputIm (doSeg P L c).Select2 ∈ (doSeg P L c).written := by
  refine ⟨fun h1 => ?_, fun h2 => ?_, ?_⟩
  · rw [doSeg_Select, h1]; rfl
  · rw [doSeg_Select2, h2]; rfl
  · simp [doSeg, writeIm, writeImage]

/-- C3, amended: the hypothesis holds at the middle voxel of the three-voxel row. -/
theorem unlabeled_selected_as_zero_witness :
    ((doSeg PixType.short lib3 (ParseCmdLine argsDefault).1).WS 1 = 0
        ∨ (doSeg PixType.short lib3 (ParseCmdLine argsDefault).1).WS2 1 = 0)
      ∧ (((doSeg PixType.short lib3 (ParseCmdLine argsDefault).1).WS 1 = 0
            → (doSeg PixType.short lib3 (ParseCmdLine argsDefault).1).Select 1 = 0)
        ∧ ((doSeg PixType.short lib3 (ParseCmdLine argsDefault).1).WS2 1 = 0
            → (doSeg PixType.short lib3 (ParseCmdLine argsDefault).1).Select2 1 = 0)
        ∧ Written.mask (ParseCmdLine argsDefault).1.OutputIm
            (doSeg PixType.short lib3 (ParseCmdLine argsDefault).1).Select2
            ∈ (doSeg PixType.short lib3 (ParseCmdLine argsDefault).1).written) :=
  ⟨Or.inl (by decide),
    unlabeled_selected_as_zero PixType.short lib3 (ParseCmdLine argsDefault).1 1 (Or.inl (by decide))⟩

/-! ## C4: intermediate volumes and the debug flag -/

/-- C4: a run without the debug switch (`debug` is false after parsing) writes
four volumes, the three intermediate ones included. -/
theorem intermediates_written_without_debug :
    (main lib7 args7).debug = false
      ∧ (main lib7 args7).doSegCalls.map (fun r => r.2.written.map Written.filename)
          = [["/tmp/stage1.nii.gz", "out.nii.gz", "/tmp/grad2.nii.gz", "/tmp/marker2.nii.gz"]]
      ∧ (writeImDbg (main lib7 args7).debug (doSeg PixType.short lib7 (ParseCmdLine args7).1).Select
            "stage1").map Written.filename = [] := by
  refine ⟨rfl, rfl, rfl⟩

/-! ## C5: the dimension gate of `main` -/

/-- C5: `main` returns EXIT_SUCCESS and calls `doSeg` (once, for one pixel type)
exactly when `readImageInfo` succeeds and reports 3 dimensions; in every other
case it returns EXIT_FAILURE and calls no `doSeg`. -/
theorem main_dimension_gate {ι : Type} (L : Lib ι) (a : Args) :
    ((main L a).status = EXIT_SUCCESS
        ↔ ∃ t, L.readImageInfo (ParseCmdLine a).1.InputIm = some (t, 3))
      ∧ ((main L a).status = EXIT_FAILURE
        ↔ ¬ ∃ t, L.readImageInfo (ParseCmdLine a).1.InputIm = some (t, 3))
      ∧ ((∃ p, (main L a).doSegCalls = [(p, doSeg p L (ParseCmdLine a).1)])
        ↔ ∃ t, L.readImageInfo (ParseCmdLine a).1.InputIm = some (t, 3))
      ∧ ((main L a).doSegCalls = []
        ↔ ¬ ∃ t, L.readImageInfo (ParseCmdLine a).1.InputIm = some (t, 3)) := by
  cases hinfo : L.readImageInfo (ParseCmdLine a).1.InputIm with
  | none => simp [main, hinfo, EXIT_SUCCESS, EXIT_FAILURE]
  | some r =>
    obtain ⟨t, d⟩ := r
    by_cases hd : d = 3
    · subst hd
      cases t <;> simp [main, hinfo, EXIT_SUCCESS, EXIT_FAILURE, dimension]
    · simp [main, hinfo, EXIT_SUCCESS, EXIT_FAILURE, dimension, hd]

/-! ## C6: fiducial injection -/

/-- C6, as stated, fails: for a SHORT volume `main` runs `doSeg` for the pixel
type short; at the voxel the fiducial file marks with 255 the stage-2 cost
field is 32767, the largest short, while the maximum of 200 times the
fiducial and the smoothed stage-2 field is 51000. -/
theorem gradient2_fiducial_saturates :
    (main libFid argsFid).doSegCalls.map (fun r => r.1) = [PixType.short]
      ∧ libFid.readMaskIm (ParseCmdLine argsFid).1.FiducialIm 5 = 255
      ∧ (doSeg PixType.short libFid (ParseCmdLine argsFid).1).gradient2 5 = 32767
      ∧ max (200 * (libFid.readMaskIm (ParseCmdLine argsFid).1.FiducialIm 5 : Int))
          ((doSeg PixType.short libFid (ParseCmdLine argsFid).1).Grad2 5) = 51000
      ∧ (doSeg PixType.short libFid (ParseCmdLine argsFid).1).gradient2 5
          ≠ max (200 * (libFid.readMaskIm (ParseCmdLine argsFid).1.FiducialIm 5 : Int))
              ((doSeg PixType.short libFid (ParseCmdLine argsFid).1).Grad2 5) := by
  refine ⟨rfl, by decide, by decide, by decide, by decide⟩

/-- C6, amended: for a fiducial voxel value (an unsigned char, at most 255) the
stage-1 cost field is the maximum of 100 times the fiducial and the smoothed
stage-1 field; the stage-2 cost field is the maximum of the smoothed stage-2
field and 200 times the fiducial saturated at the largest value of the pixel
type, which is 32767 for a short volume and a fiducial of 164 or more and 200
times the fiducial otherwise; with the empty file name both cost fields are the
smoothed fields; each cost field is voxelwise at least the smoothed field. -/
theorem fiducial_injection {ι : Type} (P : PixType) (L : Lib ι) (c : CmdLineType) (v : ι)
    (hf : L.readMaskIm c.FiducialIm v ≤ 255) :
    (doSeg P L c).gradient v
        = (if c.FiducialIm = "" then (doSeg P L c).Grad v
           else max (100 * (L.readMaskIm c.FiducialIm v : Int)) ((doSeg P L c).Grad v))
      ∧ (doSeg P L c).gradient2 v
        = (if c.FiducialIm = "" then (doSeg P L c).Grad2 v
           else max (min (200 * (L.readMaskIm c.FiducialIm v : Int)) P.max)
             ((doSeg P L c).Grad2 v))
      ∧ min (200 * (L.readMaskIm c.FiducialIm v : Int)) P.max
        = (if P = PixType.short ∧ 164 ≤ L.readMaskIm c.FiducialIm v then 32767
           else 200 * (L.readMaskIm c.FiducialIm v : Int))
      ∧ (doSeg P L c).Grad v ≤ (doSeg P L c).gradient v
      ∧ (doSeg P L c).Grad2 v ≤ (doSeg P L c).gradient2 v
      ∧ (doSeg P L c).WS
          = L.MorphologicalWatershedFromMarkers (doSeg P L c).gradient (doSeg P L c).Comb
      ∧ (doSeg P L c).WS2
          = L.MorphologicalWatershedFromMarkers (doSeg P L c).gradient2 (doSeg P L c).Comb2 := by
  have hf1 : (L.readMaskIm c.FiducialIm v : Int) ≤ 255 := by exact_mod_cast hf
  have hf0 : (0 : Int) ≤ (L.readMaskIm c.FiducialIm v : Int) := Int.natCast_nonneg _
  have hsat : min (200 * (L.readMaskIm c.FiducialIm v : Int)) P.max
      = (if P = PixType.short ∧ 164 ≤ L.readMaskIm c.FiducialIm v then 32767
         else 200 * (L.readMaskIm c.FiducialIm v : Int)) := by
    cases P <;> simp only [PixType.max, min_def, reduceCtorEq, false_and, true_and, if_false]
      <;> split_ifs <;> omega
  have h1 : ShiftScaleImageFilter P (L.readMaskIm c.FiducialIm) 0 100 v
      = 100 * (L.readMaskIm c.FiducialIm v : Int) := by
    simp only [ShiftScaleImageFilter]
    cases P <;> simp only [PixType.max, PixType.NonpositiveMin, add_zero] <;> split_ifs <;> omega
  have h2 : ShiftScaleImageFilter P (L.readMaskIm c.FiducialIm) 0 200 v
      = min (200 * (L.readMaskIm c.FiducialIm v : Int)) P.max := by
    simp only [ShiftScaleImageFilter]
    cases P <;> simp only [PixType.max, PixType.NonpositiveMin, add_zero, min_def]
      <;> split_ifs <;> omega
  have g1 : (doSeg P L c).gradient v
      = (if c.FiducialIm = "" then (doSeg P L c).Grad v
         else max (ShiftScaleImageFilter P (L.readMaskIm c.FiducialIm) 0 100 v)
           ((doSeg P L c).Grad v)) := by
    by_cases h : c.FiducialIm = "" <;> simp [doSeg, h, MaximumImageFilter]
  have g2 : (doSeg P L c).gradient2 v
      = (if c.FiducialIm = "" then (doSeg P L c).Grad2 v
         else max (ShiftScaleImageFilter P (L.readMaskIm c.FiducialIm) 0 200 v)
           ((doSeg P L c).Grad2 v)) := by
    by_cases h : c.FiducialIm = "" <;> simp [doSeg, h, MaximumImageFilter]
  rw [h1] at g1
  rw [h2] at g2
  refine ⟨g1, g2, hsat, ?_, ?_, rfl, rfl⟩
  · rw [g1]; split_ifs
    · exact le_refl _
    · exact le_max_right _ _
  · rw [g2]; split_ifs
    · exact le_refl _
    · exact le_max_right _ _

/-- C6, amended: the hypothesis holds at the voxel the fiducial file marks with
255 in the run on a short volume, where the stage-2 product saturates. -/
theorem fiducial_injection_witness :
    libFid.readMaskIm (ParseCmdLine argsFid).1.FiducialIm 5 ≤ 255
      ∧ (doSeg PixType.short libFid (ParseCmdLine argsFid).1).gradient 5
          = max 25500 ((doSeg PixType.short libFid (ParseCmdLine argsFid).1).Grad 5)
      ∧ (doSeg PixType.short libFid (ParseCmdLine argsFid).1).gradient2 5
          = max 32767 ((doSeg PixType.short libFid (ParseCmdLine argsFid).1).Grad2 5) := by
  have hf : libFid.readMaskIm (ParseCmdLine argsFid).1.FiducialIm 5 ≤ 255 := by decide
  have h := fiducial_injection PixType.short libFid (ParseCmdLine argsFid).1 5 hf
  have hv : libFid.readMaskIm (ParseCmdLine argsFid).1.FiducialIm 5 = 255 := by decide
  have hn : (ParseCmdLine argsFid).1.FiducialIm ≠ "" := by decide
  refine ⟨hf, ?_, ?_⟩
  · rw [h.1, if_neg hn, hv]; rfl
  · rw [h.2.1, if_neg hn, hv]; rfl

/-! ## C7: the stage-2 marker -/

/-- C7: the stage-2 marker is the voxelwise maximum of the stage-1 mask (1 exactly
where the stage-1 watershed label is 1) and the background marker `Invert` of
stage 1 (2 exactly where the filled mask dilated by `dilatesize` is 0); the
stage-1 marker is built on the same `Invert`. -/
theorem stage2_marker {ι : Type} (P : PixType) (L : Lib ι) (c : CmdLineType) (v : ι) :
    (doSeg P L c).Comb2 v
        = max (if (doSeg P L c).WS v = 1 then 1 else 0)
            (if L.BinaryDilatePara c.dilatesize (L.BinaryFillhole (L.readMaskIm c.MaskIm)) v = 0
              then 2 else 0)
      ∧ (doSeg P L c).Invert v
        = (if L.BinaryDilatePara c.dilatesize (L.BinaryFillhole (L.readMaskIm c.MaskIm)) v = 0
            then 2 else 0)
      ∧ (doSeg P L c).Comb v = max ((doSeg P L c).Erode v) ((doSeg P L c).Invert v)
      ∧ (doSeg P L c).Comb2 v = max ((doSeg P L c).Select v) ((doSeg P L c).Invert v)
      ∧ (doSeg P L c).HEADDilate
        = L.BinaryDilatePara (max c.dilatesize 5) (L.BinaryFillhole (L.readMaskIm c.MaskIm)) := by
  have hI := doSeg_Invert P L c v
  have hS := doSeg_Select P L c v
  refine ⟨?_, hI, rfl, rfl, rfl⟩
  rw [doSeg_Comb2, hS, hI]
  rfl

/-! ## C8: the erosion radius -/

/-- C8, as stated, fails: with `--erode -1` the radius handed to the erosion is
the negative `erodesize`, unchanged, not a clamped value. -/
theorem negative_erodesize_passed_unchanged :
    (ParseCmdLine argsNegErode).1.erodesize = -1
      ∧ (doSeg PixType.short lib7 (ParseCmdLine argsNegErode).1).ErodeRadius = -1
      ∧ (doSeg PixType.short lib7 (ParseCmdLine argsNegErode).1).ErodeRadius < 0
      ∧ (doSeg PixType.short lib7 (ParseCmdLine argsNegErode).1).ErodeRadius
          ≠ max (ParseCmdLine argsNegErode).1.erodesize 0 := by
  decide

/-- C8, amended: in a run with a negative or zero `erodesize` the erosion stage
is a no-op, the foreground marker fed to `Comb` is a copy of the hole-filled
mask, and the output mask is written; `doSeg` does no clamping, the radius
handed to the erosion is `erodesize` unchanged and the no-op is the erosion
filter's own treatment of such a radius. -/
theorem nonpositive_erodesize_noop {ι : Type} (P : PixType) (L : Lib ι) (c : CmdLineType)
    (h : c.erodesize ≤ 0) :
    (doSeg P L c).ErodeRadius = c.erodesize
      ∧ (doSeg P L c).Fill = L.BinaryFillhole (L.readMaskIm c.MaskIm)
      ∧ (doSeg P L c).Erode = (doSeg P L c).Fill
      ∧ (doSeg P L c).Comb = Comb (doSeg P L c).Fill (doSeg P L c).Invert
      ∧ Written.mask c.OutputIm (doSeg P L c).Select2 ∈ (doSeg P L c).written := by
  have he : (doSeg P L c).Erode = (doSeg P L c).Fill := by
    show BinaryErodeParaImageFilter L.BinaryErodePara c.erodesize (doSeg P L c).Fill = _
    simp [BinaryErodeParaImageFilter, h]
  refine ⟨rfl, rfl, he, ?_, ?_⟩
  · show Comb (doSeg P L c).Erode (doSeg P L c).Invert = _
    rw [he]
  · simp [doSeg, writeIm, writeImage]

/-- C8, amended: the hypothesis holds for `--erode -1`, here on the seven-voxel
row, where `main` also returns success. -/
theorem nonpositive_erodesize_noop_witness :
    (ParseCmdLine argsNegErode).1.erodesize ≤ 0
      ∧ (doSeg PixType.short lib7 (ParseCmdLine argsNegErode).1).Erode
          = (doSeg PixType.short lib7 (ParseCmdLine argsNegErode).1).Fill
      ∧ (doSeg PixType.short lib7 (ParseCmdLine argsNegErode).1).Erode 3 = 1
      ∧ (main lib7 argsNegErode).status = EXIT_SUCCESS :=
  ⟨by decide,
    (nonpositive_erodesize_noop PixType.short lib7 (ParseCmdLine argsNegErode).1
      (by decide)).2.2.1,
    by decide, rfl⟩

/-! ## C9: polarity and clamp of the stage-1 field -/

/-- C9: the field handed to the stage-1 smoothing is `max 0 (s * g)`, with `g` the
masked directional gradient (scale 1, 0 outside the head mask) and `s` = 1 when
`LightToDark` holds, -1 otherwise, `LightToDark` being the negation of the
`--darktolight` switch; the field is non-negative and equals `s * g` where
that is non-negative. -/
theorem DGThresh_polarity_clamp {ι : Type} (P : PixType) (L : Lib ι) (c : CmdLineType) (a : Args) (v : ι) :
    (ParseCmdLine a).1.LightToDark = (!a.signArg)
      ∧ (doSeg P L c).Grad = L.SmoothingRecursiveGaussian c.smoothsize (doSeg P L c).DGThresh
      ∧ (doSeg P L c).DGThresh v
        = max 0 ((if c.LightToDark then 1 else -1)
            * DirectionalGradientImageFilter
                (L.directionalDerivative (L.readIm c.InputIm) (doSeg P L c).HEADDilate)
                (doSeg P L c).HEADDilate 0 1 v)
      ∧ 0 ≤ (doSeg P L c).DGThresh v
      ∧ (doSeg P L c).DGThresh v
        = (if 0 ≤ (if c.LightToDark then 1 else -1)
              * DirectionalGradientImageFilter
                  (L.directionalDerivative (L.readIm c.InputIm) (doSeg P L c).HEADDilate)
                  (doSeg P L c).HEADDilate 0 1 v
           then (if c.LightToDark then 1 else -1)
              * DirectionalGradientImageFilter
                  (L.directionalDerivative (L.readIm c.InputIm) (doSeg P L c).HEADDilate)
                  (doSeg P L c).HEADDilate 0 1 v
           else 0) := by
  have key : (doSeg P L c).DGThresh v
      = ThresholdBelow (DirectionalGradientImageFilter
          (L.directionalDerivative (L.readIm c.InputIm) (doSeg P L c).HEADDilate)
          (doSeg P L c).HEADDilate 0 (if !c.LightToDark then -1 else 1)) 0 0 v := rfl
  refine ⟨rfl, rfl, ?_, ?_, ?_⟩
  · rw [key]
    simp only [ThresholdBelow, DirectionalGradientImageFilter]
    cases c.LightToDark <;> by_cases hm : (doSeg P L c).HEADDilate v = 0 <;>
      simp [hm, max_def] <;> split_ifs <;> omega
  · rw [key]
    simp only [ThresholdBelow, DirectionalGradientImageFilter]
    split_ifs <;> omega
  · rw [key]
    simp only [ThresholdBelow, DirectionalGradientImageFilter]
    cases c.LightToDark <;> by_cases hm : (doSeg P L c).HEADDilate v = 0 <;>
      simp [hm] <;> split_ifs <;> omega

/-! ## C10: the two inputs of each combine step never collide -/

/-- C10: if the erosion output is 1 on its support and lies inside the filled
mask, the filled mask lies inside the dilation output, and the stage-1 watershed
keeps the label of every marked voxel, then no voxel is non-zero in both inputs
of `Comb`, none in both inputs of `Comb2`, and each combined marker is 1 exactly
on its foreground input, 2 exactly on the background marker and 0 elsewhere. -/
theorem markers_disjoint {ι : Type} (P : PixType) (L : Lib ι) (c : CmdLineType)
    (hE : ∀ v, (doSeg P L c).Erode v ≠ 0 → (doSeg P L c).Erode v = 1 ∧ (doSeg P L c).Fill v ≠ 0)
    (hD : ∀ v, (doSeg P L c).Fill v ≠ 0 → (doSeg P L c).Dilate v ≠ 0)
    (hW : ∀ v, (doSeg P L c).Comb v ≠ 0 → (doSeg P L c).WS v = (doSeg P L c).Comb v) (v : ι) :
    ¬ ((doSeg P L c).Erode v ≠ 0 ∧ (doSeg P L c).Invert v ≠ 0)
      ∧ ¬ ((doSeg P L c).Select v ≠ 0 ∧ (doSeg P L c).Invert v ≠ 0)
      ∧ ((doSeg P L c).Comb v = 0 ∨ (doSeg P L c).Comb v = 1 ∨ (doSeg P L c).Comb v = 2)
      ∧ ((doSeg P L c).Comb v = 1 ↔ (doSeg P L c).Erode v ≠ 0)
      ∧ ((doSeg P L c).Comb v = 2 ↔ (doSeg P L c).Invert v ≠ 0)
      ∧ ((doSeg P L c).Comb v = 0 ↔ (doSeg P L c).Erode v = 0 ∧ (doSeg P L c).Invert v = 0)
      ∧ ((doSeg P L c).Comb2 v = 0 ∨ (doSeg P L c).Comb2 v = 1 ∨ (doSeg P L c).Comb2 v = 2)
      ∧ ((doSeg P L c).Comb2 v = 1 ↔ (doSeg P L c).Select v ≠ 0)
      ∧ ((doSeg P L c).Comb2 v = 2 ↔ (doSeg P L c).Invert v ≠ 0)
      ∧ ((doSeg P L c).Comb2 v = 0 ↔ (doSeg P L c).Select v = 0 ∧ (doSeg P L c).Invert v = 0) := by
  have hI := doSeg_Invert P L c v
  have hS := doSeg_Select P L c v
  have hC := doSeg_Comb P L c v
  have hC2 := doSeg_Comb2 P L c v
  have hE1 := hE v
  have hD1 := hD v
  have hW1 := hW v
  by_cases hd : (doSeg P L c).Dilate v = 0
  · -- background marker voxel: outside the filled mask, hence outside the erosion
    have hf : (doSeg P L c).Fill v = 0 := by
      by_contra hne
      exact hD1 hne hd
    have he : (doSeg P L c).Erode v = 0 := by
      by_contra hne
      exact (hE1 hne).2 hf
    have hi : (doSeg P L c).Invert v = 2 := by rw [hI]; simp [hd]
    have hc : (doSeg P L c).Comb v = 2 := by rw [hC, he, hi]; rfl
    have hw : (doSeg P L c).WS v = 2 := by rw [hW1 (by omega), hc]
    have hs : (doSeg P L c).Select v = 0 := by rw [hS]; simp [hw]
    have hc2 : (doSeg P L c).Comb2 v = 2 := by rw [hC2, hs, hi]; rfl
    simp [he, hi, hc, hs, hc2]
  · have hi : (doSeg P L c).Invert v = 0 := by rw [hI]; simp [hd]
    have hc : (doSeg P L c).Comb v = (doSeg P L c).Erode v := by rw [hC, hi]; simp
    have hc2 : (doSeg P L c).Comb2 v = (doSeg P L c).Select v := by rw [hC2, hi]; simp
    have hsel : (doSeg P L c).Select v = 0 ∨ (doSeg P L c).Select v = 1 := by
      rw [hS]; split_ifs <;> simp
    by_cases he : (doSeg P L c).Erode v = 0
    · rcases hsel with h0 | h1
      · simp [hi, hc, hc2, he, h0]
      · simp [hi, hc, hc2, he, h1]
    · have he1 := (hE1 he).1
      rcases hsel with h0 | h1
      · simp [hi, hc, hc2, he1, h0]
      · simp [hi, hc, hc2, he1, h1]

/-- C10: the hypotheses hold for the run on the seven-voxel row (erosion 1 mm,
dilation 1 mm), here at voxel 3. -/
theorem markers_disjoint_witness :
    (∀ v, (doSeg PixType.short lib7 (ParseCmdLine args7).1).Erode v ≠ 0
        → (doSeg PixType.short lib7 (ParseCmdLine args7).1).Erode v = 1
          ∧ (doSeg PixType.short lib7 (ParseCmdLine args7).1).Fill v ≠ 0)
      ∧ (∀ v, (doSeg PixType.short lib7 (ParseCmdLine args7).1).Fill v ≠ 0
        → (doSeg PixType.short lib7 (ParseCmdLine args7).1).Dilate v ≠ 0)
      ∧ (∀ v, (doSeg PixType.short lib7 (ParseCmdLine args7).1).Comb v ≠ 0
        → (doSeg PixType.short lib7 (ParseCmdLine args7).1).WS v = (doSeg PixType.short lib7 (ParseCmdLine args7).1).Comb v)
      ∧ (doSeg PixType.short lib7 (ParseCmdLine args7).1).Comb 3 = 1
      ∧ (doSeg PixType.short lib7 (ParseCmdLine args7).1).Comb2 3 = 1 := by
  have hE : ∀ v, (doSeg PixType.short lib7 (ParseCmdLine args7).1).Erode v ≠ 0
      → (doSeg PixType.short lib7 (ParseCmdLine args7).1).Erode v = 1
        ∧ (doSeg PixType.short lib7 (ParseCmdLine args7).1).Fill v ≠ 0 := by decide
  have hD : ∀ v, (doSeg PixType.short lib7 (ParseCmdLine args7).1).Fill v ≠ 0
      → (doSeg PixType.short lib7 (ParseCmdLine args7).1).Dilate v ≠ 0 := by decide
  have hW : ∀ v, (doSeg PixType.short lib7 (ParseCmdLine args7).1).Comb v ≠ 0
      → (doSeg PixType.short lib7 (ParseCmdLine args7).1).WS v
        = (doSeg PixType.short lib7 (ParseCmdLine args7).1).Comb v := by decide
  have h := markers_disjoint PixType.short lib7 (ParseCmdLine args7).1 hE hD hW 3
  refine ⟨hE, hD, hW, ?_, ?_⟩
  · exact h.2.2.2.1.mpr (by decide)
  · exact h.2.2.2.2.2.2.2.1.mpr (by decide)

end MkSurf
